import Mathlib

/-!
Verification of the kick-wss client library (connection lifecycle and
message-normalization pipeline) against its natural-language specification.

The development shallowly embeds:
  * the JSON value model and a JSON text decoder (standing in for the
    runtime's JSON.parse on the wire frames),
  * MessageParser.parseMessage / extractEventType / cleanEmotes and the
    per-event-kind transforms (src/MessageParser.ts, current revision),
  * WebSocketManager: subscribeToChannels, handleMessage, isEventFiltered,
    connect / disconnect / reconnect transitions and the pending connect
    resolve/reject pair (src/WebSocketManager.ts).

JavaScript runtime behaviors that the source relies on (property access on
null or undefined raising TypeError, truthiness coercion, string coercion,
short-circuit of the or-operator) are modelled explicitly; every place a
thrown exception would be swallowed by a try/catch in the source is
modelled as an Option-none result.
-/

namespace KickWss

/-- JSON value model; numbers carry the integer value (every numeric literal
appearing in the claims and in the wire examples is an integer; a fractional
part is consumed by the decoder but truncated). -/
inductive Json where
  | null : Json
  | bool (b : Bool) : Json
  | num (n : Int) : Json
  | str (s : String) : Json
  | arr (xs : List Json) : Json
  | obj (fields : List (String × Json)) : Json
deriving Repr, Inhabited

/-- Opening brace character. -/
def lbrace : Char := Char.ofNat 123

/-- Closing brace character. -/
def rbrace : Char := Char.ofNat 125

/-- JSON whitespace. -/
def isJsonWs (c : Char) : Bool :=
  c = ' ' ∨ c = '\t' ∨ c = '\n' ∨ c = '\r'

/-- Decode a JSON string literal body (the opening quote already consumed):
characters up to the closing quote, handling the escape sequences JSON.parse
accepts; a malformed escape makes the whole decode fail. -/
def parseStrBody : List Char → Option (List Char × List Char)
  | [] => none
  | c :: rest =>
    if c = '"' then some ([], rest)
    else if c = '\\' then
      match rest with
      | [] => none
      | e :: rest2 =>
        let dec : Option Char :=
          if e = '"' then some '"'
          else if e = '\\' then some '\\'
          else if e = '/' then some '/'
          else if e = 'n' then some '\n'
          else if e = 't' then some '\t'
          else if e = 'r' then some '\r'
          else if e = 'b' then some (Char.ofNat 8)
          else if e = 'f' then some (Char.ofNat 12)
          else none
        match dec with
        | some d =>
          match parseStrBody rest2 with
          | some (cs, r) => some (d :: cs, r)
          | none => none
        | none => none
    else
      match parseStrBody rest with
      | some (cs, r) => some (c :: cs, r)
      | none => none

/-- Decode a decimal digit. -/
def digitVal (c : Char) : Option Nat :=
  if '0' ≤ c ∧ c ≤ '9' then some (c.toNat - '0'.toNat) else none

/-- Decode a JSON number: optional minus sign, one or more digits, and an
optional fractional/exponent tail that is consumed but ignored (the integer
part is returned). -/
def parseNum (cs : List Char) : Option (Int × List Char) :=
  let (neg, cs1) :=
    match cs with
    | '-' :: rest => (true, rest)
    | _ => (false, cs)
  let ds := cs1.takeWhile (fun c => (digitVal c).isSome)
  let cs2 := cs1.dropWhile (fun c => (digitVal c).isSome)
  if ds.isEmpty then none
  else
    let n : Nat := ds.foldl (fun acc c => acc * 10 + ((digitVal c).getD 0)) 0
    let cs3 :=
      match cs2 with
      | '.' :: rest => rest.dropWhile (fun c => (digitVal c).isSome)
      | _ => cs2
    let cs4 :=
      match cs3 with
      | 'e' :: rest => (rest.dropWhile (fun c => c = '+' ∨ c = '-')).dropWhile (fun c => (digitVal c).isSome)
      | 'E' :: rest => (rest.dropWhile (fun c => c = '+' ∨ c = '-')).dropWhile (fun c => (digitVal c).isSome)
      | _ => cs3
    some (if neg then -(n : Int) else (n : Int), cs4)

/-- Drop an expected literal run of characters. -/
def dropLiteral : List Char → List Char → Option (List Char)
  | [], cs => some cs
  | l :: ls, c :: cs => if c = l then dropLiteral ls cs else none
  | _ :: _, [] => none

mutual

/-- Fuel-based recursive-descent decoder for a JSON value. -/
def parseVal : Nat → List Char → Option (Json × List Char)
  | 0, _ => none
  | fuel + 1, cs0 =>
    let cs := cs0.dropWhile isJsonWs
    match cs with
    | [] => none
    | c :: rest =>
      if c = '"' then
        match parseStrBody rest with
        | some (body, r) => some (Json.str (String.mk body), r)
        | none => none
      else if c = '[' then
        let rest1 := rest.dropWhile isJsonWs
        match rest1 with
        | ']' :: r => some (Json.arr [], r)
        | _ =>
          match parseArrItems fuel rest1 with
          | some (xs, r) => some (Json.arr xs, r)
          | none => none
      else if c = lbrace then
        let rest1 := rest.dropWhile isJsonWs
        match rest1 with
        | d :: r =>
          if d = rbrace then some (Json.obj [], r)
          else
            match parseObjItems fuel rest1 with
            | some (fs, r2) => some (Json.obj fs, r2)
            | none => none
        | [] => none
      else if c = 't' then
        match dropLiteral ['r', 'u', 'e'] rest with
        | some r => some (Json.bool true, r)
        | none => none
      else if c = 'f' then
        match dropLiteral ['a', 'l', 's', 'e'] rest with
        | some r => some (Json.bool false, r)
        | none => none
      else if c = 'n' then
        match dropLiteral ['u', 'l', 'l'] rest with
        | some r => some (Json.null, r)
        | none => none
      else
        match parseNum cs with
        | some (n, r) => some (Json.num n, r)
        | none => none

/-- Array elements: value, then a comma-separated tail up to the closing
bracket. -/
def parseArrItems : Nat → List Char → Option (List Json × List Char)
  | 0, _ => none
  | fuel + 1, cs =>
    match parseVal fuel cs with
    | some (v, r) =>
      let r1 := r.dropWhile isJsonWs
      match r1 with
      | ',' :: r2 =>
        match parseArrItems fuel r2 with
        | some (vs, r3) => some (v :: vs, r3)
        | none => none
      | ']' :: r2 => some ([v], r2)
      | _ => none
    | none => none

/-- Object members: quoted key, colon, value, then a comma-separated tail up
to the closing brace. -/
def parseObjItems : Nat → List Char → Option (List (String × Json) × List Char)
  | 0, _ => none
  | fuel + 1, cs =>
    let cs1 := cs.dropWhile isJsonWs
    match cs1 with
    | c :: rest =>
      if c = '"' then
        match parseStrBody rest with
        | some (key, r) =>
          let r1 := r.dropWhile isJsonWs
          match r1 with
          | ':' :: r2 =>
            match parseVal fuel r2 with
            | some (v, r3) =>
              let r4 := r3.dropWhile isJsonWs
              match r4 with
              | ',' :: r5 =>
                match parseObjItems fuel r5 with
                | some (fs, r6) => some ((String.mk key, v) :: fs, r6)
                | none => none
              | d :: r5 =>
                if d = rbrace then some ([(String.mk key, v)], r5) else none
              | [] => none
            | none => none
          | _ => none
        | none => none
      else none
    | [] => none

end

/-- Model of JSON.parse on a whole text: decode one value and require only
whitespace after it. -/
def Json.parse (s : String) : Option Json :=
  match parseVal (s.length + 1) s.data with
  | some (j, rest) => if (rest.dropWhile isJsonWs).isEmpty then some j else none
  | none => none

/-! ### MessageParser.cleanEmotes

Embedding of `content.replace(/\[emote:(\d+):(\w+)\]/g, "$2")`
(src/MessageParser.ts).  The regex admits a direct maximal-munch scan:
after `[emote:` the digit run is stopped by the (non-digit) colon and the
word run is stopped by the (non-word) closing bracket, so no backtracking
can occur, and the global flag means leftmost non-overlapping matches. -/

/-- The regex digit class. -/
def isDigitChar (c : Char) : Bool := '0' ≤ c ∧ c ≤ '9'

/-- The regex word class (JavaScript backslash-w). -/
def isWordChar (c : Char) : Bool :=
  ('0' ≤ c ∧ c ≤ '9') ∨ ('a' ≤ c ∧ c ≤ 'z') ∨ ('A' ≤ c ∧ c ≤ 'Z') ∨ c = '_'

/-- Try to match one `[emote:<digits>:<word>]` placeholder at the head of the
character list; on success return the word characters and the rest of the
input after the closing bracket. -/
def matchEmote (cs : List Char) : Option (List Char × List Char) :=
  match dropLiteral "[emote:".data cs with
  | none => none
  | some cs1 =>
    let ds := cs1.takeWhile isDigitChar
    let cs2 := cs1.dropWhile isDigitChar
    if ds.isEmpty then none
    else
      match cs2 with
      | ':' :: cs3 =>
        let ws := cs3.takeWhile isWordChar
        let cs4 := cs3.dropWhile isWordChar
        if ws.isEmpty then none
        else
          match cs4 with
          | ']' :: cs5 => some (ws, cs5)
          | _ => none
      | _ => none

theorem dropLiteral_length {ls cs cs1 : List Char}
    (h : dropLiteral ls cs = some cs1) : cs1.length + ls.length = cs.length := by
  induction ls generalizing cs with
  | nil => simp [dropLiteral] at h; simp [h]
  | cons l ls ih =>
    cases cs with
    | nil => simp [dropLiteral] at h
    | cons c cs =>
      simp only [dropLiteral] at h
      split at h
      · have := ih h; simp [List.length_cons]; omega
      · exact absurd h (by simp)

theorem dropWhile_len_le {α : Type} (p : α → Bool) (l : List α) :
    (l.dropWhile p).length ≤ l.length := by
  induction l with
  | nil => simp [List.dropWhile]
  | cons c rest ih =>
    simp only [List.dropWhile]
    split
    · exact Nat.le_trans ih (Nat.le_succ _)
    · exact Nat.le_refl _

theorem matchEmote_length {cs ws rest : List Char}
    (h : matchEmote cs = some (ws, rest)) : rest.length < cs.length := by
  unfold matchEmote at h
  split at h
  · exact absurd h (by simp)
  · rename_i cs1 hdrop
    have h1 : cs1.length + 7 = cs.length := by
      simpa using dropLiteral_length hdrop
    dsimp only at h
    split at h
    · exact absurd h (by simp)
    · rename_i hds
      split at h
      · rename_i cs3 heq
        have h2 : cs3.length < cs1.length := by
          have hd : (cs1.dropWhile isDigitChar).length ≤ cs1.length :=
            dropWhile_len_le _ _
          rw [heq] at hd
          simp [List.length_cons] at hd
          omega
        split at h
        · exact absurd h (by simp)
        · split at h
          · rename_i cs5 heq2
            have h3 : cs5.length < cs3.length := by
              have hd : (cs3.dropWhile isWordChar).length ≤ cs3.length :=
                dropWhile_len_le _ _
              rw [heq2] at hd
              simp [List.length_cons] at hd
              omega
            simp only [Option.some.injEq, Prod.mk.injEq] at h
            obtain ⟨hw, hr⟩ := h
            subst hr
            omega
          · exact absurd h (by simp)
      · exact absurd h (by simp)

/-- One pass of the global replace over the character list: at every position
try the placeholder match; on a hit emit the word characters and continue
after the match, otherwise copy one character. -/
def cleanAux (cs : List Char) : List Char :=
  match h : matchEmote cs with
  | some (ws, rest) =>
    have : rest.length < cs.length := matchEmote_length h
    ws ++ cleanAux rest
  | none =>
    match cs with
    | [] => []
    | c :: rest => c :: cleanAux rest
termination_by cs.length

/-- Fuel-driven version of the same scan (every step consumes at least one
character, so fuel = length suffices); used in the executable definition. -/
def cleanAuxF : Nat → List Char → List Char
  | 0, cs => cs
  | fuel + 1, cs =>
    match matchEmote cs with
    | some (ws, rest) => ws ++ cleanAuxF fuel rest
    | none =>
      match cs with
      | [] => []
      | c :: rest => c :: cleanAuxF fuel rest

theorem cleanAux_hit {cs ws rest : List Char}
    (h : matchEmote cs = some (ws, rest)) : cleanAux cs = ws ++ cleanAux rest := by
  rw [cleanAux]
  split
  · rename_i ws2 rest2 h2
    rw [h] at h2
    injection h2 with h2
    injection h2 with ha hb
    rw [ha, hb]
  · rename_i h2
    rw [h] at h2
    exact absurd h2 (by simp)

theorem cleanAux_miss {c : Char} {cs : List Char}
    (h : matchEmote (c :: cs) = none) : cleanAux (c :: cs) = c :: cleanAux cs := by
  rw [cleanAux]
  split
  · rename_i ws2 rest2 h2
    rw [h] at h2
    exact absurd h2 (by simp)
  · rfl

theorem cleanAuxF_eq (fuel : Nat) :
    ∀ cs : List Char, cs.length ≤ fuel → cleanAuxF fuel cs = cleanAux cs := by
  induction fuel with
  | zero =>
    intro cs h
    have : cs = [] := List.length_eq_zero.mp (Nat.le_zero.mp h)
    subst this
    rw [cleanAux]
    rfl
  | succ f ih =>
    intro cs h
    unfold cleanAuxF
    split
    · rename_i ws rest hm
      rw [cleanAux_hit hm, ih rest (by have := matchEmote_length hm; omega)]
    · rename_i hm
      cases cs with
      | nil => rw [cleanAux]; rfl
      | cons c rest =>
        simp only [List.length_cons] at h
        rw [cleanAux_miss hm]
        dsimp only
        rw [ih rest (by omega)]

/-- MessageParser.cleanEmotes: falsy content yields the empty string, else
every `[emote:<digits>:<word>]` is replaced by `<word>`. -/
def cleanEmotes (s : String) : String :=
  if s = "" then "" else String.mk (cleanAuxF (s.data.length + 1) s.data)

theorem cleanEmotes_eq_cleanAux (s : String) :
    cleanEmotes s = String.mk (cleanAux s.data) := by
  unfold cleanEmotes
  split
  · rename_i h
    subst h
    rw [cleanAux]
    rfl
  · rw [cleanAuxF_eq _ _ (Nat.le_succ _)]

/-- Model of the JavaScript startsWith used by the source on event names. -/
def isPrefixChars : List Char → List Char → Bool
  | [], _ => true
  | _ :: _, [] => false
  | p :: ps, c :: cs => p = c && isPrefixChars ps cs

/-- String-level wrapper for the startsWith model. -/
def strStartsWith (s p : String) : Bool :=
  isPrefixChars p.data s.data

/-- Whitespace trimmed by String.prototype.trim (the ASCII part, which is
all the wire frames considered can contain). -/
def isTrimWs (c : Char) : Bool :=
  c = ' ' ∨ c = '\t' ∨ c = '\n' ∨ c = '\r' ∨ c = Char.ofNat 11 ∨ c = Char.ofNat 12

/-- Model of the JavaScript trim used by the source's empty-input guards. -/
def strTrim (s : String) : String :=
  String.mk (((s.data.dropWhile isTrimWs).reverse.dropWhile isTrimWs).reverse)

/-! ### JavaScript-semantics helpers

`Option Json` models a JavaScript value that may be `undefined` (`none`). -/

/-- Property read on a decoded JSON value: objects yield the last binding
for the key (JSON.parse keeps the last duplicate key), anything else yields
undefined.  Reading a property OF null/undefined is handled at call sites
(it throws). -/
def Json.look (j : Json) (k : String) : Option Json :=
  match j with
  | .obj fs => fs.foldl (fun acc f => if f.1 = k then some f.2 else acc) none
  | _ => none

/-- JavaScript truthiness of a JSON value. -/
def jsTruthy : Json → Bool
  | .null => false
  | .bool b => b
  | .num n => n ≠ 0
  | .str s => s ≠ ""
  | .arr _ => true
  | .obj _ => true

/-- Truthiness of a possibly-undefined value. -/
def jsTruthyOpt : Option Json → Bool
  | some j => jsTruthy j
  | none => false

/-- Optional-chaining property read `v?.k`: null/undefined receivers yield
undefined instead of throwing. -/
def jsGetOpt (v : Option Json) (k : String) : Option Json :=
  match v with
  | none => none
  | some .null => none
  | some j => j.look k

/-- The or-default idiom `v || d` (JavaScript returns `d` when `v` is falsy
or undefined). -/
def jsOr (v : Option Json) (d : Json) : Json :=
  match v with
  | some j => if jsTruthy j then j else d
  | none => d

mutual

/-- JavaScript string coercion of a JSON value, as applied by JSON.parse to
a non-string argument: primitives print their value, arrays join their
coerced elements with commas, plain objects print "[object Object]". -/
def jsToString : Json → String
  | .null => "null"
  | .bool true => "true"
  | .bool false => "false"
  | .num n => toString n
  | .str s => s
  | .arr xs => String.intercalate "," (jsToStringList xs)
  | .obj _ => "[object Object]"

/-- Array element coercion: null elements stringify to the empty string. -/
def jsToStringList : List Json → List String
  | [] => []
  | .null :: rest => "" :: jsToStringList rest
  | j :: rest => jsToString j :: jsToStringList rest

end

/-! ### Domain event payloads (src/types.ts runtime shapes)

Fields that the source copies verbatim from the decoded wire payload are
`Option Json` (`none` = the JavaScript `undefined` that an absent field
yields); fields the source computes through defaulting are `Json`. -/

/-- Sender identity after defaulting (parseChatMessage). -/
structure ChatIdentity where
  color : Json
  badges : Json
deriving Repr

/-- Chat sender projection (parseChatMessage). -/
structure ChatSender where
  id : Option Json
  username : Option Json
  slug : Option Json
  identity : ChatIdentity
deriving Repr

/-- Chatroom reference after defaulting (parseChatMessage). -/
structure ChatroomRef where
  id : Json
deriving Repr

/-- ChatMessageEvent runtime shape. -/
structure ChatMessageEvent where
  id : Option Json
  content : String
  type : String
  created_at : Option Json
  sender : ChatSender
  chatroom : ChatroomRef
deriving Repr

/-- MessageDeletedEvent runtime shape. -/
structure MessageDeletedEvent where
  message_id : Option Json
  chatroom_id : Option Json
  type : String
deriving Repr

/-- UserBannedEvent runtime shape. -/
structure UserBannedEvent where
  username : Json
  type : String
deriving Repr

/-- UserUnbannedEvent runtime shape. -/
structure UserUnbannedEvent where
  username : Json
  type : String
deriving Repr

/-- SubscriptionEvent runtime shape. -/
structure SubscriptionEvent where
  username : Json
  type : String
deriving Repr

/-- GiftedSubscriptionsEvent runtime shape. -/
structure GiftedSubscriptionsEvent where
  gifted_by : Json
  recipients : List Json
  type : String
deriving Repr

/-- PinnedMessageCreatedEvent runtime shape. -/
structure PinnedMessageCreatedEvent where
  message : ChatMessageEvent
  type : String
deriving Repr

/-- StreamHostEvent runtime shape. -/
structure StreamHostEvent where
  hoster : Json
  hosted_channel : Json
  type : String
deriving Repr

/-- Poll option projection (parsePollUpdate). -/
structure PollOption where
  id : Option Json
  text : Option Json
  votes : Json
deriving Repr

/-- PollUpdateEvent runtime shape. -/
structure PollUpdateEvent where
  poll_id : Option Json
  question : Option Json
  options : List PollOption
  type : String
deriving Repr

/-- PollDeleteEvent runtime shape. -/
structure PollDeleteEvent where
  poll_id : Option Json
  type : String
deriving Repr

/-- RewardRedeemedEvent runtime shape. -/
structure RewardRedeemedEvent where
  reward_title : Option Json
  user_id : Option Json
  channel_id : Option Json
  username : Option Json
  user_input : Option Json
  reward_background_color : Option Json
  type : String
deriving Repr

/-- KicksGifted sender projection. -/
structure KicksSender where
  id : Option Json
  username : Option Json
  username_color : Option Json
deriving Repr

/-- KicksGifted gift projection. -/
structure KicksGift where
  gift_id : Option Json
  name : Option Json
  amount : Option Json
  type : Option Json
  tier : Option Json
  character_limit : Option Json
  pinned_time : Option Json
deriving Repr

/-- KicksGiftedEvent runtime shape. -/
structure KicksGiftedEvent where
  gift_transaction_id : Option Json
  message : Option Json
  sender : KicksSender
  gift : KicksGift
  type : String
deriving Repr

/-- The domain kinds the parser can emit. -/
inductive KickEventType where
  | ChatMessage
  | MessageDeleted
  | UserBanned
  | UserUnbanned
  | Subscription
  | GiftedSubscriptions
  | PinnedMessageCreated
  | StreamHost
  | PollUpdate
  | PollDelete
  | RewardRedeemed
  | KicksGifted
deriving DecidableEq, Repr

/-- Tagged union of the per-kind payloads. -/
inductive KickEventData where
  | chatMessage (e : ChatMessageEvent)
  | messageDeleted (e : MessageDeletedEvent)
  | userBanned (e : UserBannedEvent)
  | userUnbanned (e : UserUnbannedEvent)
  | subscription (e : SubscriptionEvent)
  | giftedSubscriptions (e : GiftedSubscriptionsEvent)
  | pinnedMessageCreated (e : PinnedMessageCreatedEvent)
  | streamHost (e : StreamHostEvent)
  | pollUpdate (e : PollUpdateEvent)
  | pollDelete (e : PollDeleteEvent)
  | rewardRedeemed (e : RewardRedeemedEvent)
  | kicksGifted (e : KicksGiftedEvent)
deriving Repr

/-- The envelope parseMessage returns (legacyType present only for aliased
wire names). -/
structure ParsedMessage where
  type : KickEventType
  data : KickEventData
  legacyType : Option String
deriving Repr

/-- The envelope is well-formed when the type tag matches the payload
constructor. -/
def envelopeWellFormed (e : ParsedMessage) : Bool :=
  match e.type, e.data with
  | .ChatMessage, .chatMessage _ => true
  | .MessageDeleted, .messageDeleted _ => true
  | .UserBanned, .userBanned _ => true
  | .UserUnbanned, .userUnbanned _ => true
  | .Subscription, .subscription _ => true
  | .GiftedSubscriptions, .giftedSubscriptions _ => true
  | .PinnedMessageCreated, .pinnedMessageCreated _ => true
  | .StreamHost, .streamHost _ => true
  | .PollUpdate, .pollUpdate _ => true
  | .PollDelete, .pollDelete _ => true
  | .RewardRedeemed, .rewardRedeemed _ => true
  | .KicksGifted, .kicksGifted _ => true
  | _, _ => false

/-! ### Canonical wire event names and the legacy-alias table

The current MessageParser imports `KickEvent` and `LEGACY_EVENT_MAPPING`
from types.ts; the revision of types.ts defining them is not part of the
source snapshot, so they are modelled from the spec.  The ten canonical
names below also appear verbatim in the `KickEvent` enum inside
WebSocketManager.ts, which is part of the snapshot. -/

namespace KickEvent

/-- Canonical namespaced wire name for chat messages. -/
def ChatMessage : String := "App\\Events\\ChatMessageEvent"

/-- Canonical namespaced wire name for message deletions. -/
def MessageDeleted : String := "App\\Events\\MessageDeletedEvent"

/-- Canonical namespaced wire name for bans. -/
def UserBanned : String := "App\\Events\\UserBannedEvent"

/-- Canonical namespaced wire name for unbans. -/
def UserUnbanned : String := "App\\Events\\UserUnbannedEvent"

/-- Canonical namespaced wire name for subscriptions. -/
def Subscription : String := "App\\Events\\SubscriptionEvent"

/-- Canonical namespaced wire name for gifted subscriptions. -/
def GiftedSubscriptions : String := "App\\Events\\GiftedSubscriptionsEvent"

/-- Canonical namespaced wire name for pinned messages. -/
def PinnedMessageCreated : String := "App\\Events\\PinnedMessageCreatedEvent"

/-- Canonical namespaced wire name for stream hosting. -/
def StreamHost : String := "App\\Events\\StreamHostEvent"

/-- Canonical namespaced wire name for poll updates. -/
def PollUpdate : String := "App\\Events\\PollUpdateEvent"

/-- Canonical namespaced wire name for poll deletions. -/
def PollDelete : String := "App\\Events\\PollDeleteEvent"

/-- Modelled from the spec: the canonical event name is the namespaced wire
event name, so the reward-redeemed kind follows the same naming scheme (its
enum entry lives in the types.ts revision missing from the snapshot). -/
def RewardRedeemed : String := "App\\Events\\RewardRedeemedEvent"

/-- Modelled from the spec: canonical namespaced name for the kicks-gifted
kind (enum entry in the missing types.ts revision). -/
def KicksGifted : String := "App\\Events\\KicksGiftedEvent"

end KickEvent

/-- Modelled from the spec: the legacy-alias table of the missing types.ts
revision maps each bare historical event name (the namespaced canonical
name without its namespace prefix) to the namespaced canonical form. -/
def LEGACY_EVENT_MAPPING (k : String) : Option String :=
  if k = "ChatMessageEvent" then some KickEvent.ChatMessage
  else if k = "MessageDeletedEvent" then some KickEvent.MessageDeleted
  else if k = "UserBannedEvent" then some KickEvent.UserBanned
  else if k = "UserUnbannedEvent" then some KickEvent.UserUnbanned
  else if k = "SubscriptionEvent" then some KickEvent.Subscription
  else if k = "GiftedSubscriptionsEvent" then some KickEvent.GiftedSubscriptions
  else if k = "PinnedMessageCreatedEvent" then some KickEvent.PinnedMessageCreated
  else if k = "StreamHostEvent" then some KickEvent.StreamHost
  else if k = "PollUpdateEvent" then some KickEvent.PollUpdate
  else if k = "PollDeleteEvent" then some KickEvent.PollDelete
  else if k = "RewardRedeemedEvent" then some KickEvent.RewardRedeemed
  else if k = "KicksGiftedEvent" then some KickEvent.KicksGifted
  else none

/-! ### Per-kind transforms (MessageParser.parseXxx)

Each transform receives the decoded secondary payload.  A `none` result
models a TypeError escaping the transform (property read on null/undefined,
or a method call on a value that lacks it); parseMessage's try/catch turns
that into a null overall result. -/

/-- Content cleaning at the JavaScript value level: `cleanEmotes(data.content)`
returns "" for falsy content, cleans strings, and throws on truthy
non-strings (no .replace method / not a function). -/
def jsCleanContent : Option Json → Option String
  | none => some ""
  | some .null => some ""
  | some (.bool false) => some ""
  | some (.bool true) => none
  | some (.num n) => if n = 0 then some "" else none
  | some (.str s) => some (cleanEmotes s)
  | some (.arr _) => none
  | some (.obj _) => none

/-- MessageParser.parseChatMessage. -/
def parseChatMessage (d : Json) : Option ChatMessageEvent :=
  match d with
  | .null => none
  | _ =>
    match jsCleanContent (d.look "content") with
    | none => none
    | some content =>
      match d.look "sender" with
      | none => none
      | some .null => none
      | some sj =>
        let identity := sj.look "identity"
        some {
          id := d.look "id"
          content := content
          type := "message"
          created_at := d.look "created_at"
          sender := {
            id := sj.look "id"
            username := sj.look "username"
            slug := sj.look "slug"
            identity := {
              color := jsOr (jsGetOpt identity "color") (.str "#ffffff")
              badges := jsOr (jsGetOpt identity "badges") (.arr []) } }
          chatroom := { id := jsOr (jsGetOpt (d.look "chatroom") "id") (.num 0) } }

/-- MessageParser.parseMessageDeleted. -/
def parseMessageDeleted (d : Json) : Option MessageDeletedEvent :=
  match d with
  | .null => none
  | _ =>
    some { message_id := d.look "message_id"
           chatroom_id := d.look "chatroom_id"
           type := "message_deleted" }

/-- MessageParser.parseUserBanned. -/
def parseUserBanned (d : Json) : Option UserBannedEvent :=
  match d with
  | .null => none
  | _ =>
    some { username := jsOr (d.look "username")
             (jsOr (d.look "banned_username") (.str "unknown"))
           type := "user_banned" }

/-- MessageParser.parseUserUnbanned. -/
def parseUserUnbanned (d : Json) : Option UserUnbannedEvent :=
  match d with
  | .null => none
  | _ =>
    some { username := jsOr (d.look "username")
             (jsOr (d.look "unbanned_username") (.str "unknown"))
           type := "user_unbanned" }

/-- MessageParser.parseSubscription. -/
def parseSubscription (d : Json) : Option SubscriptionEvent :=
  match d with
  | .null => none
  | _ =>
    some { username := jsOr (d.look "username")
             (jsOr (jsGetOpt (d.look "user") "username") (.str "unknown"))
           type := "subscription" }

/-- MessageParser.parseGiftedSubscriptions.  The middle operand of the
gifter chain is only evaluated when `gifted_by` is falsy, and it throws when
`gifter` is null (typeof null is "object", so `gifter.username` is read). -/
def parseGiftedSubscriptions (d : Json) : Option GiftedSubscriptionsEvent :=
  match d with
  | .null => none
  | _ =>
    let giftedBy := d.look "gifted_by"
    let gifterExpr : Option (Option Json) :=
      if jsTruthyOpt giftedBy then some giftedBy
      else
        match d.look "gifter" with
        | some .null => none
        | some (.obj fs) => some ((Json.obj fs).look "username")
        | some (.arr xs) => some ((Json.arr xs).look "username")
        | some prim => some (some prim)
        | none => some none
    match gifterExpr with
    | none => none
    | some mid =>
      let gifter := if jsTruthyOpt giftedBy then jsOr giftedBy (.str "unknown")
        else jsOr mid (.str "unknown")
      let recipients : Option (List Json) :=
        match d.look "recipients" with
        | some (.arr rs) =>
          rs.mapM (fun r =>
            match r with
            | .str s => some (Json.str s)
            | .null => none
            | other => some (jsOr (other.look "username") (.str "unknown")))
        | _ => some []
      match recipients with
      | none => none
      | some recs =>
        some { gifted_by := gifter, recipients := recs,
               type := "gifted_subscriptions" }

/-- MessageParser.parsePinnedMessageCreated. -/
def parsePinnedMessageCreated (d : Json) : Option PinnedMessageCreatedEvent :=
  match d with
  | .null => none
  | _ =>
    match d.look "message" with
    | none => none
    | some m =>
      match parseChatMessage m with
      | none => none
      | some e => some { message := e, type := "pinned_message_created" }

/-- MessageParser.parseStreamHost. -/
def parseStreamHost (d : Json) : Option StreamHostEvent :=
  match d with
  | .null => none
  | _ =>
    let hoster := match d.look "hoster" with
      | some (.str s) => Json.str s
      | v => jsOr (jsGetOpt v "username") (.str "unknown")
    let hosted := match d.look "hosted_channel" with
      | some (.str s) => Json.str s
      | v => jsOr (jsGetOpt v "username") (.str "unknown")
    some { hoster := hoster, hosted_channel := hosted, type := "stream_host" }

/-- MessageParser.parsePollUpdate.  `(data.options || []).map` throws when
options is a truthy non-array, and each option element throws when null. -/
def parsePollUpdate (d : Json) : Option PollUpdateEvent :=
  match d with
  | .null => none
  | _ =>
    let options : Option (List PollOption) :=
      match jsOr (d.look "options") (.arr []) with
      | .arr xs =>
        xs.mapM (fun o =>
          match o with
          | .null => none
          | _ => some { id := o.look "id", text := o.look "text",
                        votes := jsOr (o.look "votes") (.num 0) })
      | _ => none
    match options with
    | none => none
    | some opts =>
      some { poll_id := d.look "id", question := d.look "question",
             options := opts, type := "poll_update" }

/-- MessageParser.parsePollDelete. -/
def parsePollDelete (d : Json) : Option PollDeleteEvent :=
  match d with
  | .null => none
  | _ => some { poll_id := d.look "id", type := "poll_delete" }

/-- MessageParser.parseRewardRedeemed. -/
def parseRewardRedeemed (d : Json) : Option RewardRedeemedEvent :=
  match d with
  | .null => none
  | _ =>
    some { reward_title := d.look "reward_title"
           user_id := d.look "user_id"
           channel_id := d.look "channel_id"
           username := d.look "username"
           user_input := d.look "user_input"
           reward_background_color := d.look "reward_background_color"
           type := "reward_redeemed" }

/-- MessageParser.parseKicksGifted (reads through data.sender and data.gift,
throwing when either is null/undefined). -/
def parseKicksGifted (d : Json) : Option KicksGiftedEvent :=
  match d with
  | .null => none
  | _ =>
    match d.look "sender" with
    | none => none
    | some .null => none
    | some sj =>
      match d.look "gift" with
      | none => none
      | some .null => none
      | some gj =>
        some { gift_transaction_id := d.look "gift_transaction_id"
               message := d.look "message"
               sender := { id := sj.look "id"
                           username := sj.look "username"
                           username_color := sj.look "username_color" }
               gift := { gift_id := gj.look "gift_id"
                         name := gj.look "name"
                         amount := gj.look "amount"
                         type := gj.look "type"
                         tier := gj.look "tier"
                         character_limit := gj.look "character_limit"
                         pinned_time := gj.look "pinned_time" }
               type := "kicks_gifted" }

/-! ### MessageParser.parseMessage -/

/-- The switch over the normalized event name (parseMessage lines 81-166):
pick the per-kind transform, or null for unknown names. -/
def switchEvent (canonical : String) (d : Json) : Option (KickEventType × KickEventData) :=
  if canonical = KickEvent.ChatMessage then
    (parseChatMessage d).map (fun e => (.ChatMessage, .chatMessage e))
  else if canonical = KickEvent.MessageDeleted then
    (parseMessageDeleted d).map (fun e => (.MessageDeleted, .messageDeleted e))
  else if canonical = KickEvent.UserBanned then
    (parseUserBanned d).map (fun e => (.UserBanned, .userBanned e))
  else if canonical = KickEvent.UserUnbanned then
    (parseUserUnbanned d).map (fun e => (.UserUnbanned, .userUnbanned e))
  else if canonical = KickEvent.Subscription then
    (parseSubscription d).map (fun e => (.Subscription, .subscription e))
  else if canonical = KickEvent.GiftedSubscriptions then
    (parseGiftedSubscriptions d).map (fun e => (.GiftedSubscriptions, .giftedSubscriptions e))
  else if canonical = KickEvent.PinnedMessageCreated then
    (parsePinnedMessageCreated d).map (fun e => (.PinnedMessageCreated, .pinnedMessageCreated e))
  else if canonical = KickEvent.StreamHost then
    (parseStreamHost d).map (fun e => (.StreamHost, .streamHost e))
  else if canonical = KickEvent.PollUpdate then
    (parsePollUpdate d).map (fun e => (.PollUpdate, .pollUpdate e))
  else if canonical = KickEvent.PollDelete then
    (parsePollDelete d).map (fun e => (.PollDelete, .pollDelete e))
  else if canonical = KickEvent.RewardRedeemed then
    (parseRewardRedeemed d).map (fun e => (.RewardRedeemed, .rewardRedeemed e))
  else if canonical = KickEvent.KicksGifted then
    (parseKicksGifted d).map (fun e => (.KicksGifted, .kicksGifted e))
  else none

/-- Legacy-alias resolution:
`const normalizedEvent = LEGACY_EVENT_MAPPING[message.event] || message.event`
(table values are non-empty strings, so the or-fallback reduces to
get-or-else). -/
def normalizeEventName (ev : String) : String :=
  match LEGACY_EVENT_MAPPING ev with
  | some c => c
  | none => ev

/-- Normalization and dispatch of a wire event name with its decoded data
payload (parseMessage lines 71-173): resolve the legacy alias, switch on
the canonical name, and annotate the result with the original name when it
required aliasing. -/
def dispatchEvent (ev : String) (d : Json) : Option ParsedMessage :=
  match switchEvent (normalizeEventName ev) d with
  | some (t, pd) =>
    some { type := t, data := pd,
           legacyType := if ev = normalizeEventName ev then none else some ev }
  | none => none

/-- The part of parseMessage after the outer JSON decode succeeded:
the event/data presence and shape guards, relay system-event rejection,
the secondary JSON decode and the dispatch. -/
def parseMessageBody (m : Json) : Option ParsedMessage :=
  match m with
  | .null => none
  | _ =>
    if ¬ jsTruthyOpt (m.look "event") then none
    else
      match m.look "data" with
      | none => none
      | some dv =>
        match m.look "event" with
        | some (.str ev) =>
          if strStartsWith ev "pusher:" ∨ strStartsWith ev "pusher_internal:" then none
          else if ev = "" then none
          else
            match dv with
            | .str "" => none
            | _ =>
              match Json.parse (jsToString dv) with
              | none => none
              | some eventData => dispatchEvent ev eventData
        | _ => none

/-- MessageParser.parseMessage: the full raw-text to domain-envelope
function.  Every throwing path inside the try block lands in the catch and
yields none. -/
def parseMessage (raw : String) : Option ParsedMessage :=
  if raw = "" then none
  else if strTrim raw = "" then none
  else
    match Json.parse raw with
    | none => none
    | some m => parseMessageBody m

/-- MessageParser.extractEventType: the event name of a frame, or null for
malformed frames, falsy/non-string event fields and relay system events. -/
def extractEventType (raw : String) : Option String :=
  if raw = "" then none
  else if strTrim raw = "" then none
  else
    match Json.parse raw with
    | none => none
    | some .null => none
    | some m =>
      match m.look "event" with
      | none => none
      | some evj =>
        if ¬ jsTruthy evj then none
        else
          match evj with
          | .str ev =>
            if strStartsWith ev "pusher:" ∨ strStartsWith ev "pusher_internal:" then none
            else if ev = "" then none
            else some ev
          | _ => none

/-! ### WebSocketManager (src/WebSocketManager.ts) -/

/-- EVENT_TYPE_MAP (WebSocketManager.ts lines 188-199): wire name to
standard event type, for the ten kinds of the manager's own KickEvent
enum.  It has no entries for legacy bare names, RewardRedeemed or
KicksGifted. -/
def EVENT_TYPE_MAP (ev : String) : Option KickEventType :=
  if ev = KickEvent.ChatMessage then some .ChatMessage
  else if ev = KickEvent.MessageDeleted then some .MessageDeleted
  else if ev = KickEvent.UserBanned then some .UserBanned
  else if ev = KickEvent.UserUnbanned then some .UserUnbanned
  else if ev = KickEvent.Subscription then some .Subscription
  else if ev = KickEvent.GiftedSubscriptions then some .GiftedSubscriptions
  else if ev = KickEvent.PinnedMessageCreated then some .PinnedMessageCreated
  else if ev = KickEvent.StreamHost then some .StreamHost
  else if ev = KickEvent.PollUpdate then some .PollUpdate
  else if ev = KickEvent.PollDelete then some .PollDelete
  else none

/-- WebSocketManager.isEventFiltered: with a non-empty allow-list, a wire
event name is filtered out when its EVENT_TYPE_MAP entry exists and is not
in the list; names without an entry are never filtered. -/
def isEventFiltered (filteredEvents : List KickEventType) (eventType : String) : Bool :=
  if filteredEvents.isEmpty then false
  else
    match EVENT_TYPE_MAP eventType with
    | some std => !(filteredEvents.contains std)
    | none => false

/-- The filter decision handleMessage takes before parsing: drop when the
extracted event name exists and isEventFiltered accepts it. -/
def droppedByFilter (filteredEvents : List KickEventType) (raw : String) : Bool :=
  match extractEventType raw with
  | some et => isEventFiltered filteredEvents et
  | none => false

/-- For stating the filtering claim: the canonical domain kind of a wire
event name, i.e. the kind the parser's switch selects after legacy-alias
normalization. -/
def canonicalKindOf (ev : String) : Option KickEventType :=
  let normalized := normalizeEventName ev
  if normalized = KickEvent.ChatMessage then some .ChatMessage
  else if normalized = KickEvent.MessageDeleted then some .MessageDeleted
  else if normalized = KickEvent.UserBanned then some .UserBanned
  else if normalized = KickEvent.UserUnbanned then some .UserUnbanned
  else if normalized = KickEvent.Subscription then some .Subscription
  else if normalized = KickEvent.GiftedSubscriptions then some .GiftedSubscriptions
  else if normalized = KickEvent.PinnedMessageCreated then some .PinnedMessageCreated
  else if normalized = KickEvent.StreamHost then some .StreamHost
  else if normalized = KickEvent.PollUpdate then some .PollUpdate
  else if normalized = KickEvent.PollDelete then some .PollDelete
  else if normalized = KickEvent.RewardRedeemed then some .RewardRedeemed
  else if normalized = KickEvent.KicksGifted then some .KicksGifted
  else none

/-- What the manager can emit while handling one inbound frame. -/
inductive Emission where
  | rawMessage (s : String)
  | domain (t : KickEventType) (d : KickEventData)
  | pingSent
deriving Repr

/-- Emission classifier used in concrete statements (avoids payload-level
equality). -/
def isDomainEmission (t : KickEventType) : Emission → Bool
  | .domain t2 _ => t2 = t
  | _ => false

/-- WebSocketManager.handleMessage after the unconditional rawMessage
emission: system-event interception (with the keepalive ping on
pusher:pong), the filter decision, then parsing and domain dispatch. -/
def handleMessageRest (filteredEvents : List KickEventType) (wsOpen : Bool)
    (raw : String) : List Emission :=
  let sysIntercept : Option (List Emission) :=
    match Json.parse raw with
    | none => none
    | some .null => none
    | some m =>
      match m.look "event" with
      | none => none
      | some .null => none
      | some (.str ev) =>
        if strStartsWith ev "pusher:" ∨ strStartsWith ev "pusher_internal:" then
          some (if ev = "pusher:pong" ∧ wsOpen then [Emission.pingSent] else [])
        else none
      | some _ => none
  match sysIntercept with
  | some extra => extra
  | none =>
    if droppedByFilter filteredEvents raw then []
    else
      match parseMessage raw with
      | some p => [Emission.domain p.type p.data]
      | none => []

/-- WebSocketManager.handleMessage: the rawMessage observability emission
always comes first, before interception, filtering and parsing. -/
def handleMessage (filteredEvents : List KickEventType) (wsOpen : Bool)
    (raw : String) : List Emission :=
  Emission.rawMessage raw :: handleMessageRest filteredEvents wsOpen raw

/-! ### Subscription handshake -/

/-- SubscriptionMessage.data shape (types.ts). -/
structure SubData where
  auth : Option String
  channel : Option String
deriving DecidableEq, Repr

/-- SubscriptionMessage shape (types.ts). -/
structure SubscriptionMessage where
  event : String
  data : Option SubData
deriving DecidableEq, Repr

/-- The pusher:subscribe control frame for one topic. -/
def mkSubscribe (channel : String) : SubscriptionMessage :=
  { event := "pusher:subscribe", data := some { auth := some "", channel := some channel } }

/-- The topic a raw subscription envelope names: `message.data?.channel`. -/
def frameChannel (m : SubscriptionMessage) : Option String :=
  m.data.bind (fun d => d.channel)

/-- The six auto-derived topics for a resolved chatroom/channel id
(subscribeToChannels lines 456-461). -/
def autoTopics (id : Nat) : List String :=
  [ "chatroom_" ++ toString id
  , "chatrooms." ++ toString id ++ ".v2"
  , "channel_" ++ toString id
  , "chatrooms." ++ toString id
  , "channel." ++ toString id
  , "predictions-channel-" ++ toString id ]

/-- The de-duplicating send loop of subscribeToChannels: both source loops
thread one `subscribedChannels` set, so they are modelled as one pass over
the pending (topic, frame) pairs; a frame reaches the wire only when the
transport is open (sendSubscription's readyState guard), but the topic is
marked subscribed regardless. -/
def dedupSend (sendOk : Bool) (seen : List String) :
    List (String × SubscriptionMessage) → List String × List SubscriptionMessage
  | [] => (seen, [])
  | (c, m) :: rest =>
    if c ∈ seen then dedupSend sendOk seen rest
    else
      ((dedupSend sendOk (seen ++ [c]) rest).1,
       (if sendOk then [m] else []) ++ (dedupSend sendOk (seen ++ [c]) rest).2)

/-- Connection states (types.ts ConnectionState). -/
inductive ConnectionState where
  | disconnected
  | connecting
  | connected
  | reconnecting
  | error
deriving DecidableEq, Repr

/-- The pending connect promise settlements, as invoked through the stored
connectionResolver / connectionRejector references. -/
inductive SettleAction where
  | resolve
  | reject
deriving DecidableEq, Repr

/-- WebSocketManager mutable state.  `ws` is the transport reference,
`wsOpen` whether its readyState is OPEN, `reconnectTimer` whether a
scheduled reconnect callback is pending, and the two connection* booleans
whether the resolver/rejector references of the caller's connect promise
are installed. -/
structure MgrState where
  ws : Bool
  wsOpen : Bool
  channelName : String
  channelId : Nat
  connectionState : ConnectionState
  autoReconnect : Bool
  reconnectTimer : Bool
  isManualDisconnect : Bool
  connectionResolver : Bool
  connectionRejector : Bool
  customSubscriptions : List String
  subscriptionMessages : List SubscriptionMessage
deriving Repr

/-- WebSocketManager.subscribeToChannels: append the six auto-derived
topics to customSubscriptions, send one subscribe frame per not-yet-seen
topic (custom topics first, then raw envelopes with a truthy channel), mark
connected, and settle-and-clear the pending connect promise. -/
def subscribeToChannels (st : MgrState) :
    MgrState × List SubscriptionMessage × List SettleAction :=
  if ¬ st.ws then (st, [], [])
  else
    let subs := st.customSubscriptions ++ autoTopics st.channelId
    let pairs1 := subs.map (fun c => (c, mkSubscribe c))
    let pairs2 := st.subscriptionMessages.filterMap (fun m =>
      match frameChannel m with
      | some c => if c = "" then none else some (c, m)
      | none => none)
    let frames := (dedupSend st.wsOpen [] (pairs1 ++ pairs2)).2
    let acts := if st.connectionResolver then [SettleAction.resolve] else []
    ({ st with customSubscriptions := subs
               connectionState := .connected
               connectionResolver := false
               connectionRejector := false }, frames, acts)

/-- The transport open event: the socket that fired onopen is live and
OPEN; its handler runs subscribeToChannels. -/
def onOpenStep (st : MgrState) : MgrState × List SubscriptionMessage × List SettleAction :=
  subscribeToChannels { st with ws := true, wsOpen := true }

/-- WebSocketManager.connect: no-op guard while connected/connecting, else
install the resolve/reject pair, reset the manual-disconnect flag, record
the channel name and enter connecting (performConnection's synchronous
prefix).  The boolean reports whether a connection attempt started. -/
def connectStep (st : MgrState) (name : String) : MgrState × Bool :=
  if st.connectionState = .connected ∨ st.connectionState = .connecting then
    (st, false)
  else
    ({ st with channelName := name
               isManualDisconnect := false
               connectionResolver := true
               connectionRejector := true
               connectionState := .connecting }, true)

/-- Successful channel-metadata fetch inside performConnection: record the
chatroom id and create the transport (not yet open). -/
def fetchOkStep (st : MgrState) (chatroomId : Nat) : MgrState :=
  { st with channelId := chatroomId, ws := true, wsOpen := false }

/-- WebSocketManager.scheduleReconnect: replace (never stack) the pending
timer and enter reconnecting. -/
def scheduleReconnectStep (st : MgrState) : MgrState :=
  { st with connectionState := .reconnecting, reconnectTimer := true }

/-- WebSocketManager.handleDisconnect (transport onclose): enter
disconnected, reject-and-clear the pending pair, then auto-reconnect unless
manually disconnected. -/
def handleDisconnectStep (st : MgrState) : MgrState × List SettleAction :=
  let acts := if st.connectionRejector then [SettleAction.reject] else []
  let st1 := { st with connectionState := .disconnected
                       connectionResolver := false
                       connectionRejector := false }
  (if st.autoReconnect ∧ ¬ st.isManualDisconnect then scheduleReconnectStep st1 else st1,
   acts)

/-- WebSocketManager.handleConnectionError (fetch failure or connect
timeout): enter error, reject-and-clear the pending pair, then
auto-reconnect unless manually disconnected. -/
def handleConnectionErrorStep (st : MgrState) : MgrState × List SettleAction :=
  let acts := if st.connectionRejector then [SettleAction.reject] else []
  let st1 := { st with connectionState := .error
                       connectionResolver := false
                       connectionRejector := false }
  (if st.autoReconnect ∧ ¬ st.isManualDisconnect then scheduleReconnectStep st1 else st1,
   acts)

/-- The transport onerror handler (setupWebSocketHandlers line 432-436):
emits the error and invokes the stored rejector, but does NOT clear the
pair and changes no other state. -/
def onErrorStep (st : MgrState) : MgrState × List SettleAction :=
  (st, if st.connectionRejector then [SettleAction.reject] else [])

/-- WebSocketManager.disconnect: set the manual flag, cancel the pending
reconnect timer, close the transport with the normal-closure code 1000 and
drop its reference, enter disconnected.  Returns the close codes sent. -/
def disconnectStep (st : MgrState) : MgrState × List Nat :=
  ({ st with isManualDisconnect := true
             reconnectTimer := false
             ws := false
             wsOpen := false
             connectionState := .disconnected },
   if st.ws then [1000] else [])

/-- The scheduled reconnect callback can run only while its timer is
pending; firing consumes the timer and re-enters the connection sequence. -/
def fireReconnectStep (st : MgrState) : Option MgrState :=
  if st.reconnectTimer then
    some { st with reconnectTimer := false, connectionState := .connecting }
  else none

/-- WebSocketManager.getCustomSubscriptions: copies of the two lists. -/
def getCustomSubscriptions (st : MgrState) : List String × List SubscriptionMessage :=
  (st.customSubscriptions, st.subscriptionMessages)

/-- WebSocketManager.addCustomSubscriptions: push the channels. -/
def addCustomSubscriptionsStep (st : MgrState) (channels : List String) : MgrState :=
  { st with customSubscriptions := st.customSubscriptions ++ channels }

/-- WebSocketManager.addSubscriptionMessages: push the envelopes. -/
def addSubscriptionMessagesStep (st : MgrState) (ms : List SubscriptionMessage) : MgrState :=
  { st with subscriptionMessages := st.subscriptionMessages ++ ms }

/-- WebSocketManager.clearCustomSubscriptions: reset both lists. -/
def clearCustomSubscriptionsStep (st : MgrState) : MgrState :=
  { st with customSubscriptions := [], subscriptionMessages := [] }

/-- The operations that touch the subscription lists across a session
(clearCustomSubscriptions is the only one that removes anything). -/
inductive MgrOp where
  | openSession
  | addCustom (channels : List String)
  | addMsgs (ms : List SubscriptionMessage)
  | clearSubs
  | disconnectOp
deriving Repr

/-- Apply one operation. -/
def applyOp (st : MgrState) : MgrOp → MgrState
  | .openSession => (onOpenStep st).1
  | .addCustom ls => addCustomSubscriptionsStep st ls
  | .addMsgs ms => addSubscriptionMessagesStep st ms
  | .clearSubs => clearCustomSubscriptionsStep st
  | .disconnectOp => (disconnectStep st).1

/-- Apply a sequence of operations. -/
def applyOps (st : MgrState) : List MgrOp → MgrState
  | [] => st
  | op :: rest => applyOps (applyOp st op) rest

/-- Number of transport opens (subscription handshakes) in a sequence. -/
def numOpens : List MgrOp → Nat
  | [] => 0
  | .openSession :: rest => numOpens rest + 1
  | _ :: rest => numOpens rest

/-- How often a topic occurs among the caller-added topic lists of a
sequence. -/
def addedCount (t : String) : List MgrOp → Nat
  | [] => 0
  | .addCustom ls :: rest => ls.count t + addedCount t rest
  | _ :: rest => addedCount t rest

/-- Whether a sequence contains the explicit clear operation. -/
def hasClear : List MgrOp → Bool
  | [] => false
  | .clearSubs :: _ => true
  | _ :: rest => hasClear rest

/-- A freshly constructed manager (defaults of the constructor, no caller
subscriptions). -/
def freshState : MgrState :=
  { ws := false, wsOpen := false, channelName := "", channelId := 0
    connectionState := .disconnected, autoReconnect := true
    reconnectTimer := false, isManualDisconnect := false
    connectionResolver := false, connectionRejector := false
    customSubscriptions := [], subscriptionMessages := [] }

/-! ## Claims -/

/-- C8: for every inbound transport frame, the rawMessage event carrying the
verbatim frame text is emitted first, before system-event interception,
filtering and parsing — including frames later dropped as system, filtered
or malformed. -/
theorem claim_C8_rawMessage_first (filteredEvents : List KickEventType)
    (wsOpen : Bool) (raw : String) :
    (handleMessage filteredEvents wsOpen raw).head? = some (Emission.rawMessage raw) :=
  rfl

/-- C5: calling connect while connected or connecting is a no-op — the state
is unchanged (so no pending pair is installed) and no connection attempt
(hence no transport) is started. -/
theorem claim_C5_double_connect_noop (st : MgrState) (name : String)
    (h : st.connectionState = .connected ∨ st.connectionState = .connecting) :
    connectStep st name = (st, false) := by
  unfold connectStep
  rw [if_pos h]

/-- Witness for C5 at a concrete connected state. -/
theorem claim_C5_witness :
    ({ freshState with connectionState := .connected }.connectionState = ConnectionState.connected ∨
      { freshState with connectionState := .connected }.connectionState = ConnectionState.connecting) ∧
    connectStep { freshState with connectionState := .connected } "other" =
      ({ freshState with connectionState := .connected }, false) :=
  ⟨Or.inl rfl,
   claim_C5_double_connect_noop { freshState with connectionState := .connected } "other" (Or.inl rfl)⟩

/-- C6: manual disconnect, in every state, sets the manual flag, cancels the
pending reconnect timer, closes the transport with the normal-closure code
1000 (when a transport exists) and clears its reference; afterwards the
scheduled reconnect cannot fire, and neither a subsequent close nor error
handler re-schedules one (the manual flag suppresses auto-reconnect). -/
theorem claim_C6_disconnect_cancels_reconnect (st : MgrState) :
    (disconnectStep st).1.isManualDisconnect = true ∧
    (disconnectStep st).1.reconnectTimer = false ∧
    (disconnectStep st).1.ws = false ∧
    (disconnectStep st).1.connectionState = .disconnected ∧
    (disconnectStep st).2 = (if st.ws then [1000] else []) ∧
    fireReconnectStep (disconnectStep st).1 = none ∧
    (handleDisconnectStep (disconnectStep st).1).1.reconnectTimer = false ∧
    (handleConnectionErrorStep (disconnectStep st).1).1.reconnectTimer = false := by
  refine ⟨rfl, rfl, rfl, rfl, rfl, rfl, ?_, ?_⟩ <;>
    simp [disconnectStep, handleDisconnectStep, handleConnectionErrorStep,
          scheduleReconnectStep]

/-- C3 counterexample: start a connect from a fresh manager, then let the
transport onerror handler fire.  The rejector is invoked (the promise
settles) yet the pair is NOT cleared, and the subsequent close handler
invokes the stored rejector a second time — refuting both "cleared the
moment it settles" and "never used to settle twice". -/
theorem claim_C3_counterexample :
    (onErrorStep (connectStep freshState "chan").1).2 = [SettleAction.reject] ∧
    (onErrorStep (connectStep freshState "chan").1).1.connectionRejector = true ∧
    (handleDisconnectStep (onErrorStep (connectStep freshState "chan").1).1).2 =
      [SettleAction.reject] :=
  ⟨rfl, rfl, rfl⟩

/-- C3 (amended): the pending pair is cleared whenever it is settled through
the success path (subscription handshake on open), the close handler or the
connection-error handler; the transport onerror handler, however, invokes
the stored rejector without clearing it and changes no state, so after a
transport error the stale pair survives until a subsequent close/error
handler settles it a second time (a no-op on the already-settled promise). -/
theorem claim_C3_pending_pair_clearing (st : MgrState) :
    ((handleDisconnectStep st).1.connectionResolver = false ∧
      (handleDisconnectStep st).1.connectionRejector = false) ∧
    ((handleConnectionErrorStep st).1.connectionResolver = false ∧
      (handleConnectionErrorStep st).1.connectionRejector = false) ∧
    ((onOpenStep st).1.connectionResolver = false ∧
      (onOpenStep st).1.connectionRejector = false) ∧
    (onErrorStep st).1 = st := by
  refine ⟨⟨?_, ?_⟩, ⟨?_, ?_⟩, ⟨?_, ?_⟩, rfl⟩ <;>
    simp [handleDisconnectStep, handleConnectionErrorStep, scheduleReconnectStep,
          onOpenStep, subscribeToChannels] <;>
    split <;> simp

/-- Subscribe control frames among `fs` that name topic `t`. -/
def countFrames (t : String) (fs : List SubscriptionMessage) : Nat :=
  (fs.filter (fun m => frameChannel m = some t)).length

theorem countFrames_append (t : String) (fs gs : List SubscriptionMessage) :
    countFrames t (fs ++ gs) = countFrames t fs + countFrames t gs := by
  simp [countFrames, List.filter_append]

theorem dedupSend_none_of_seen (sendOk : Bool) (t : String) :
    ∀ (ps : List (String × SubscriptionMessage)) (seen : List String),
      (∀ p ∈ ps, frameChannel p.2 = some p.1) → t ∈ seen →
      countFrames t (dedupSend sendOk seen ps).2 = 0 := by
  intro ps
  induction ps with
  | nil => intro seen _ _; simp [dedupSend, countFrames]
  | cons p rest ih =>
    intro seen hwf ht
    obtain ⟨c, m⟩ := p
    have hm : frameChannel m = some c := hwf (c, m) (List.mem_cons_self _ _)
    have hwf2 : ∀ p ∈ rest, frameChannel p.2 = some p.1 :=
      fun p hp => hwf p (List.mem_cons_of_mem _ hp)
    by_cases hc : c ∈ seen
    · simpa [dedupSend, hc] using ih seen hwf2 ht
    · have hne : c ≠ t := fun he => hc (he ▸ ht)
      have h0 := ih (seen ++ [c]) hwf2 (List.mem_append_left _ ht)
      simp only [dedupSend, hc, if_false, countFrames_append]
      rw [h0]
      cases sendOk <;> simp [countFrames, hm, hne]

theorem dedupSend_le_one (sendOk : Bool) (t : String) :
    ∀ (ps : List (String × SubscriptionMessage)) (seen : List String),
      (∀ p ∈ ps, frameChannel p.2 = some p.1) →
      countFrames t (dedupSend sendOk seen ps).2 ≤ 1 := by
  intro ps
  induction ps with
  | nil => intro seen _; simp [dedupSend, countFrames]
  | cons p rest ih =>
    intro seen hwf
    obtain ⟨c, m⟩ := p
    have hm : frameChannel m = some c := hwf (c, m) (List.mem_cons_self _ _)
    have hwf2 : ∀ p ∈ rest, frameChannel p.2 = some p.1 :=
      fun p hp => hwf p (List.mem_cons_of_mem _ hp)
    by_cases hc : c ∈ seen
    · simpa [dedupSend, hc] using ih seen hwf2
    · simp only [dedupSend, hc, if_false, countFrames_append]
      by_cases hct : c = t
      · subst hct
        have h0 := dedupSend_none_of_seen sendOk c rest (seen ++ [c]) hwf2
          (List.mem_append_right _ (List.mem_singleton.mpr rfl))
        rw [h0]
        cases sendOk <;> simp [countFrames, hm]
      · have h1 := ih (seen ++ [c]) hwf2
        have : countFrames t (if sendOk then [m] else []) = 0 := by
          cases sendOk <;> simp [countFrames, hm, hct]
        omega

/-- C2: within one connection session (one subscription handshake), every
topic name causes at most one subscribe control frame, no matter how often
it occurs among the auto-derived topics, the caller-added topic names and
the caller-added raw subscription envelopes. -/
theorem claim_C2_subscribe_idempotent (st : MgrState) (t : String) :
    countFrames t (subscribeToChannels st).2.1 ≤ 1 := by
  unfold subscribeToChannels
  by_cases hws : st.ws
  · simp only [hws, not_true, if_false]
    apply dedupSend_le_one
    intro p hp
    rcases List.mem_append.mp hp with h1 | h2
    · obtain ⟨c, _, hc⟩ := List.mem_map.mp h1
      cases hc
      rfl
    · obtain ⟨m, _, hm⟩ := List.mem_filterMap.mp h2
      revert hm
      cases hfc : frameChannel m with
      | none => intro hm; exact absurd hm (by simp)
      | some c =>
        intro hm
        dsimp only at hm
        by_cases hce : c = ""
        · rw [if_pos hce] at hm
          exact absurd hm (by simp)
        · rw [if_neg hce] at hm
          obtain rfl := Option.some.injEq .. ▸ hm
          simpa using hfc
  · simp [hws, countFrames]

theorem applyOp_channelId (st : MgrState) (op : MgrOp) :
    (applyOp st op).channelId = st.channelId := by
  cases op <;>
    simp [applyOp, onOpenStep, subscribeToChannels, addCustomSubscriptionsStep,
          addSubscriptionMessagesStep, clearCustomSubscriptionsStep, disconnectStep]

theorem subscribeToChannels_subs (st : MgrState) (h : st.ws = true) :
    (subscribeToChannels st).1.customSubscriptions =
      st.customSubscriptions ++ autoTopics st.channelId := by
  simp [subscribeToChannels, h]

theorem autoTopics_nodup (id : Nat) : (autoTopics id).Nodup := by
  have H : ∀ a b : String, a.length ≠ b.length → a ≠ b :=
    fun a b h he => h (he ▸ rfl)
  have H2 : "channel_" ++ toString id ≠ "channel." ++ toString id := by
    intro he
    have hd : ("channel_" ++ toString id).data = ("channel." ++ toString id).data :=
      congrArg String.data he
    have hd2 : "channel_".data ++ (toString id).data =
        "channel.".data ++ (toString id).data := hd
    exact absurd (List.append_cancel_right hd2) (by decide)
  have l1 : ("chatroom_" : String).length = 9 := rfl
  have l2 : ("chatrooms." : String).length = 10 := rfl
  have l3 : (".v2" : String).length = 3 := rfl
  have l4 : ("channel_" : String).length = 8 := rfl
  have l5 : ("channel." : String).length = 8 := rfl
  have l6 : ("predictions-channel-" : String).length = 20 := rfl
  simp only [autoTopics, List.nodup_cons, List.mem_cons, List.mem_singleton,
    List.not_mem_nil, or_false, not_or, List.nodup_nil, and_true]
  repeat' apply And.intro
  all_goals first
    | exact H2
    | (apply H; simp only [String.length_append, l1, l2, l3, l4, l5, l6]; omega)
    | trivial

/-- C10: across any sequence of session operations that contains no explicit
clearCustomSubscriptions, each auto-derived topic accumulates in the
caller-visible list: after n subscription handshakes its multiplicity grows
by exactly n on top of the initial and caller-added occurrences, and
getCustomSubscriptions exposes exactly that list. -/
theorem claim_C10_autotopics_accumulate (ops : List MgrOp) :
    ∀ (st : MgrState) (t : String), t ∈ autoTopics st.channelId →
      hasClear ops = false →
      (getCustomSubscriptions (applyOps st ops)).1.count t =
        (getCustomSubscriptions st).1.count t + numOpens ops + addedCount t ops := by
  induction ops with
  | nil => intro st t _ _; simp [applyOps, numOpens, addedCount]
  | cons op rest ih =>
    intro st t ht hcl
    have ht2 : t ∈ autoTopics (applyOp st op).channelId := by
      rw [applyOp_channelId]; exact ht
    cases op with
    | openSession =>
      have hrest : hasClear rest = false := by simpa [hasClear] using hcl
      have := ih (applyOp st .openSession) t ht2 hrest
      rw [applyOps, this]
      have hsubs : (applyOp st .openSession).customSubscriptions =
          st.customSubscriptions ++ autoTopics st.channelId := by
        simp [applyOp, onOpenStep]
        exact subscribeToChannels_subs _ rfl
      have hone : (autoTopics st.channelId).count t = 1 :=
        List.count_eq_one_of_mem (autoTopics_nodup _) ht
      simp [getCustomSubscriptions, hsubs, List.count_append, hone,
            numOpens, addedCount]
      omega
    | addCustom ls =>
      have hrest : hasClear rest = false := by simpa [hasClear] using hcl
      have := ih (applyOp st (.addCustom ls)) t ht2 hrest
      rw [applyOps, this]
      simp [getCustomSubscriptions, applyOp, addCustomSubscriptionsStep,
            List.count_append, numOpens, addedCount]
      omega
    | addMsgs ms =>
      have hrest : hasClear rest = false := by simpa [hasClear] using hcl
      have := ih (applyOp st (.addMsgs ms)) t ht2 hrest
      rw [applyOps, this]
      simp [getCustomSubscriptions, applyOp, addSubscriptionMessagesStep,
            numOpens, addedCount]
    | clearSubs => simp [hasClear] at hcl
    | disconnectOp =>
      have hrest : hasClear rest = false := by simpa [hasClear] using hcl
      have := ih (applyOp st .disconnectOp) t ht2 hrest
      rw [applyOps, this]
      simp [getCustomSubscriptions, applyOp, disconnectStep, numOpens, addedCount]

/-- Witness for C10: two opens from a fresh manager put two copies of
chatroom_0 into the caller-visible list. -/
theorem claim_C10_witness :
    "chatroom_0" ∈ autoTopics freshState.channelId ∧
    hasClear [MgrOp.openSession, MgrOp.openSession] = false ∧
    (getCustomSubscriptions
        (applyOps freshState [MgrOp.openSession, MgrOp.openSession])).1.count "chatroom_0" =
      (getCustomSubscriptions freshState).1.count "chatroom_0" +
        numOpens [MgrOp.openSession, MgrOp.openSession] +
        addedCount "chatroom_0" [MgrOp.openSession, MgrOp.openSession] :=
  ⟨by decide, rfl,
   claim_C10_autotopics_accumulate [MgrOp.openSession, MgrOp.openSession]
     freshState "chatroom_0" (by decide) rfl⟩

theorem map_pair_wf {α : Type} {o : Option α} {t : KickEventType}
    {pd : KickEventData} (tc : KickEventType) (dc : α → KickEventData)
    (h : o.map (fun e => (tc, dc e)) = some (t, pd))
    (hwf : ∀ e l, envelopeWellFormed { type := tc, data := dc e, legacyType := l } = true) :
    ∀ l, envelopeWellFormed { type := t, data := pd, legacyType := l } = true := by
  rw [Option.map_eq_some'] at h
  obtain ⟨e, _, hf⟩ := h
  injection hf with h1 h2
  subst h1
  subst h2
  exact hwf e

theorem switchEvent_wf {c : String} {d : Json} {t : KickEventType}
    {pd : KickEventData} (h : switchEvent c d = some (t, pd)) :
    ∀ l, envelopeWellFormed { type := t, data := pd, legacyType := l } = true := by
  unfold switchEvent at h
  by_cases h1 : c = KickEvent.ChatMessage
  · rw [if_pos h1] at h; exact map_pair_wf _ _ h (fun e l => rfl)
  · rw [if_neg h1] at h
    by_cases h2 : c = KickEvent.MessageDeleted
    · rw [if_pos h2] at h; exact map_pair_wf _ _ h (fun e l => rfl)
    · rw [if_neg h2] at h
      by_cases h3 : c = KickEvent.UserBanned
      · rw [if_pos h3] at h; exact map_pair_wf _ _ h (fun e l => rfl)
      · rw [if_neg h3] at h
        by_cases h4 : c = KickEvent.UserUnbanned
        · rw [if_pos h4] at h; exact map_pair_wf _ _ h (fun e l => rfl)
        · rw [if_neg h4] at h
          by_cases h5 : c = KickEvent.Subscription
          · rw [if_pos h5] at h; exact map_pair_wf _ _ h (fun e l => rfl)
          · rw [if_neg h5] at h
            by_cases h6 : c = KickEvent.GiftedSubscriptions
            · rw [if_pos h6] at h; exact map_pair_wf _ _ h (fun e l => rfl)
            · rw [if_neg h6] at h
              by_cases h7 : c = KickEvent.PinnedMessageCreated
              · rw [if_pos h7] at h; exact map_pair_wf _ _ h (fun e l => rfl)
              · rw [if_neg h7] at h
                by_cases h8 : c = KickEvent.StreamHost
                · rw [if_pos h8] at h; exact map_pair_wf _ _ h (fun e l => rfl)
                · rw [if_neg h8] at h
                  by_cases h9 : c = KickEvent.PollUpdate
                  · rw [if_pos h9] at h; exact map_pair_wf _ _ h (fun e l => rfl)
                  · rw [if_neg h9] at h
                    by_cases h10 : c = KickEvent.PollDelete
                    · rw [if_pos h10] at h; exact map_pair_wf _ _ h (fun e l => rfl)
                    · rw [if_neg h10] at h
                      by_cases h11 : c = KickEvent.RewardRedeemed
                      · rw [if_pos h11] at h; exact map_pair_wf _ _ h (fun e l => rfl)
                      · rw [if_neg h11] at h
                        by_cases h12 : c = KickEvent.KicksGifted
                        · rw [if_pos h12] at h; exact map_pair_wf _ _ h (fun e l => rfl)
                        · rw [if_neg h12] at h
                          exact absurd h (Option.noConfusion)

theorem dispatchEvent_wf {ev : String} {d : Json} {env : ParsedMessage}
    (h : dispatchEvent ev d = some env) : envelopeWellFormed env = true := by
  unfold dispatchEvent at h
  split at h
  · rename_i t pd hsw
    injection h with h
    subst h
    exact switchEvent_wf hsw _
  · exact absurd h (Option.noConfusion)

theorem parseMessageBody_wf {m : Json} {env : ParsedMessage}
    (h : parseMessageBody m = some env) : envelopeWellFormed env = true := by
  unfold parseMessageBody at h
  split at h
  · exact absurd h (Option.noConfusion)
  · split_ifs at h
    split at h
    · exact absurd h (Option.noConfusion)
    · split at h
      case _ dv _ ev =>
        split_ifs at h
        split at h
        · exact absurd h (Option.noConfusion)
        · split at h
          · exact absurd h (Option.noConfusion)
          · exact dispatchEvent_wf h
      case _ => exact absurd h (Option.noConfusion)

theorem parseMessage_wf {raw : String} {env : ParsedMessage}
    (h : parseMessage raw = some env) : envelopeWellFormed env = true := by
  unfold parseMessage at h
  split_ifs at h
  split at h
  · exact absurd h (Option.noConfusion)
  · exact parseMessageBody_wf h

/-- C1: parseMessage is a total, deterministic function of the raw input
string (every JavaScript exception path is absorbed into the null result),
and every non-null result is a well-formed type/data envelope. -/
theorem claim_C1_parse_total_wellformed (raw : String) :
    parseMessage raw = none ∨
      ∃ env, parseMessage raw = some env ∧ envelopeWellFormed env = true := by
  cases h : parseMessage raw with
  | none => exact Or.inl rfl
  | some env => exact Or.inr ⟨env, rfl, parseMessage_wf h⟩

theorem legacy_mapping_props {b c : String} (h : LEGACY_EVENT_MAPPING b = some c) :
    LEGACY_EVENT_MAPPING c = none ∧ b ≠ c := by
  unfold LEGACY_EVENT_MAPPING at h
  by_cases e1 : b = "ChatMessageEvent"
  · rw [if_pos e1] at h
    injection h with h0
    subst h0
    subst e1
    exact ⟨by decide, by decide⟩
  · rw [if_neg e1] at h
    by_cases e2 : b = "MessageDeletedEvent"
    · rw [if_pos e2] at h
      injection h with h0
      subst h0
      subst e2
      exact ⟨by decide, by decide⟩
    · rw [if_neg e2] at h
      by_cases e3 : b = "UserBannedEvent"
      · rw [if_pos e3] at h
        injection h with h0
        subst h0
        subst e3
        exact ⟨by decide, by decide⟩
      · rw [if_neg e3] at h
        by_cases e4 : b = "UserUnbannedEvent"
        · rw [if_pos e4] at h
          injection h with h0
          subst h0
          subst e4
          exact ⟨by decide, by decide⟩
        · rw [if_neg e4] at h
          by_cases e5 : b = "SubscriptionEvent"
          · rw [if_pos e5] at h
            injection h with h0
            subst h0
            subst e5
            exact ⟨by decide, by decide⟩
          · rw [if_neg e5] at h
            by_cases e6 : b = "GiftedSubscriptionsEvent"
            · rw [if_pos e6] at h
              injection h with h0
              subst h0
              subst e6
              exact ⟨by decide, by decide⟩
            · rw [if_neg e6] at h
              by_cases e7 : b = "PinnedMessageCreatedEvent"
              · rw [if_pos e7] at h
                injection h with h0
                subst h0
                subst e7
                exact ⟨by decide, by decide⟩
              · rw [if_neg e7] at h
                by_cases e8 : b = "StreamHostEvent"
                · rw [if_pos e8] at h
                  injection h with h0
                  subst h0
                  subst e8
                  exact ⟨by decide, by decide⟩
                · rw [if_neg e8] at h
                  by_cases e9 : b = "PollUpdateEvent"
                  · rw [if_pos e9] at h
                    injection h with h0
                    subst h0
                    subst e9
                    exact ⟨by decide, by decide⟩
                  · rw [if_neg e9] at h
                    by_cases e10 : b = "PollDeleteEvent"
                    · rw [if_pos e10] at h
                      injection h with h0
                      subst h0
                      subst e10
                      exact ⟨by decide, by decide⟩
                    · rw [if_neg e10] at h
                      by_cases e11 : b = "RewardRedeemedEvent"
                      · rw [if_pos e11] at h
                        injection h with h0
                        subst h0
                        subst e11
                        exact ⟨by decide, by decide⟩
                      · rw [if_neg e11] at h
                        by_cases e12 : b = "KicksGiftedEvent"
                        · rw [if_pos e12] at h
                          injection h with h0
                          subst h0
                          subst e12
                          exact ⟨by decide, by decide⟩
                        · rw [if_neg e12] at h
                          exact absurd h Option.noConfusion

/-- C7: a wire message whose event name is a bare legacy alias dispatches to
the same domain kind with the same payload as the identical message under
the namespaced canonical name (both fail together on bad payloads), and
only the bare form carries the original name in the legacy-alias field. -/
theorem claim_C7_legacy_alias_roundtrip (bare canonical : String) (d : Json)
    (hmap : LEGACY_EVENT_MAPPING bare = some canonical) :
    (dispatchEvent bare d = none ∧ dispatchEvent canonical d = none) ∨
      ∃ t pd, dispatchEvent canonical d = some { type := t, data := pd, legacyType := none } ∧
        dispatchEvent bare d = some { type := t, data := pd, legacyType := some bare } := by
  obtain ⟨hnone, hne⟩ := legacy_mapping_props hmap
  have hnb : normalizeEventName bare = canonical := by
    simp [normalizeEventName, hmap]
  have hnc : normalizeEventName canonical = canonical := by
    simp [normalizeEventName, hnone]
  unfold dispatchEvent
  rw [hnb, hnc]
  cases hsw : switchEvent canonical d with
  | none => exact Or.inl ⟨rfl, rfl⟩
  | some tp =>
    obtain ⟨t, pd⟩ := tp
    exact Or.inr ⟨t, pd, by simp, by simp [hne]⟩

/-! ### Concrete wire frames used by the filtering and emote claims -/

/-- Wire frame: a namespaced ChatMessage whose content embeds an emote
placeholder. -/
def chatWire : String :=
  "\x7b\"event\":\"App\\\\Events\\\\ChatMessageEvent\",\"data\":\"\x7b\\\"id\\\":\\\"1\\\",\\\"content\\\":\\\"gg [emote:123:Kappa] well played\\\",\\\"created_at\\\":\\\"t\\\",\\\"sender\\\":\x7b\\\"id\\\":1,\\\"username\\\":\\\"u\\\",\\\"slug\\\":\\\"u\\\"\x7d,\\\"chatroom\\\":\x7b\\\"id\\\":2\x7d\x7d\"\x7d"

/-- Wire frame: a namespaced UserBanned message. -/
def nsBanWire : String :=
  "\x7b\"event\":\"App\\\\Events\\\\UserBannedEvent\",\"data\":\"\x7b\\\"banned_username\\\":\\\"x\\\"\x7d\"\x7d"

/-- Wire frame: the same ban payload under the bare legacy event name. -/
def bareBanWire : String :=
  "\x7b\"event\":\"UserBannedEvent\",\"data\":\"\x7b\\\"banned_username\\\":\\\"x\\\"\x7d\"\x7d"

/-- Content projection of a parsed chat envelope. -/
def envContent : ParsedMessage → Option String
  | { data := .chatMessage e, .. } => some e.content
  | _ => none

/-- Whether an emission is a domain-event emission of any kind. -/
def Emission.isDomainAny : Emission → Bool
  | .domain _ _ => true
  | _ => false

/-- Witness for C7: the bare UserBannedEvent alias with a concrete ban
payload. -/
theorem claim_C7_witness :
    LEGACY_EVENT_MAPPING "UserBannedEvent" = some KickEvent.UserBanned ∧
    ((dispatchEvent "UserBannedEvent" (Json.obj [("banned_username", Json.str "x")]) = none ∧
       dispatchEvent KickEvent.UserBanned (Json.obj [("banned_username", Json.str "x")]) = none) ∨
      ∃ t pd,
        dispatchEvent KickEvent.UserBanned (Json.obj [("banned_username", Json.str "x")]) =
          some { type := t, data := pd, legacyType := none } ∧
        dispatchEvent "UserBannedEvent" (Json.obj [("banned_username", Json.str "x")]) =
          some { type := t, data := pd, legacyType := some "UserBannedEvent" }) :=
  ⟨rfl, claim_C7_legacy_alias_roundtrip "UserBannedEvent" KickEvent.UserBanned
    (Json.obj [("banned_username", Json.str "x")]) rfl⟩

theorem dropLiteral_self : ∀ l r : List Char, dropLiteral l (l ++ r) = some r := by
  intro l
  induction l with
  | nil => intro r; rfl
  | cons c cs ih => intro r; simp [dropLiteral, ih]

theorem takeWhile_all_append {p : Char → Bool} :
    ∀ (l1 : List Char) {x : Char} (l2 : List Char),
      (∀ c ∈ l1, p c = true) → p x = false →
      (l1 ++ x :: l2).takeWhile p = l1 := by
  intro l1
  induction l1 with
  | nil => intro x l2 _ hx; simp [List.takeWhile, hx]
  | cons a t ih =>
    intro x l2 h1 hx
    have ha : p a = true := h1 a (List.mem_cons_self _ _)
    simp only [List.cons_append, List.takeWhile, ha, List.append_eq]
    rw [ih l2 (fun c hc => h1 c (List.mem_cons_of_mem _ hc)) hx]

theorem dropWhile_all_append {p : Char → Bool} :
    ∀ (l1 : List Char) {x : Char} (l2 : List Char),
      (∀ c ∈ l1, p c = true) → p x = false →
      (l1 ++ x :: l2).dropWhile p = x :: l2 := by
  intro l1
  induction l1 with
  | nil => intro x l2 _ hx; simp [List.dropWhile, hx]
  | cons a t ih =>
    intro x l2 h1 hx
    have ha : p a = true := h1 a (List.mem_cons_self _ _)
    simp only [List.cons_append, List.dropWhile, ha, List.append_eq]
    exact ih l2 (fun c hc => h1 c (List.mem_cons_of_mem _ hc)) hx

theorem matchEmote_not_bracket {c : Char} (hc : c ≠ '[') (l : List Char) :
    matchEmote (c :: l) = none := by
  unfold matchEmote
  rw [show "[emote:".data = '[' :: "emote:".data from rfl]
  simp only [dropLiteral, if_neg hc]

theorem matchEmote_hit (ds ws s : List Char) (hds : ds ≠ [])
    (hdsall : ∀ c ∈ ds, isDigitChar c = true) (hws : ws ≠ [])
    (hwsall : ∀ c ∈ ws, isWordChar c = true) :
    matchEmote ("[emote:".data ++ (ds ++ (':' :: (ws ++ (']' :: s))))) = some (ws, s) := by
  have hde : ds.isEmpty = false := by
    cases ds with
    | nil => exact absurd rfl hds
    | cons a t => rfl
  have hwe : ws.isEmpty = false := by
    cases ws with
    | nil => exact absurd rfl hws
    | cons a t => rfl
  unfold matchEmote
  rw [dropLiteral_self]
  dsimp only
  rw [takeWhile_all_append ds (ws ++ (']' :: s)) hdsall (by decide),
      dropWhile_all_append ds (ws ++ (']' :: s)) hdsall (by decide)]
  rw [if_neg (show ¬(ds.isEmpty = true) from by simp [hde])]
  split
  · rename_i cs3 heq
    injection heq with h1 h2
    subst h2
    rw [takeWhile_all_append ws s hwsall (by decide),
        dropWhile_all_append ws s hwsall (by decide)]
    rw [if_neg (show ¬(ws.isEmpty = true) from by simp [hwe])]
    split
    · rename_i cs5 heq2
      injection heq2 with h3 h4
      subst h4
      rfl
    · rename_i hne
      exact absurd rfl (hne s)
  · rename_i hne
    exact absurd rfl (hne (ws ++ (']' :: s)))

set_option maxRecDepth 10000

/-- C9: cleanEmotes performs the global scan (first conjunct ties the
executable definition to the recursive scan); the scan replaces every
`[emote:<digits>:<word>]` placeholder by its word (second conjunct, for any
placeholder whose preceding text contains no opening bracket); and the
concrete ChatMessage wire frame with content
"gg [emote:123:Kappa] well played" parses to content
"gg Kappa well played" (last conjuncts). -/
theorem claim_C9_emote_stripping :
    (∀ s : String, cleanEmotes s = String.mk (cleanAux s.data)) ∧
    (∀ p ds ws s : List Char,
      (∀ c ∈ p, c ≠ '[') → ds ≠ [] → (∀ c ∈ ds, isDigitChar c = true) →
      ws ≠ [] → (∀ c ∈ ws, isWordChar c = true) →
      cleanAux (p ++ ("[emote:".data ++ (ds ++ (':' :: (ws ++ (']' :: s)))))) =
        p ++ (ws ++ cleanAux s)) ∧
    (parseMessage chatWire).bind envContent = some "gg Kappa well played" ∧
    (parseMessage chatWire).map (fun p => p.type) = some KickEventType.ChatMessage := by
  refine ⟨cleanEmotes_eq_cleanAux, ?_, by decide, by decide⟩
  intro p ds ws s
  induction p with
  | nil =>
    intro _ hds hdsall hws hwsall
    rw [List.nil_append,
        cleanAux_hit (matchEmote_hit ds ws s hds hdsall hws hwsall),
        List.nil_append]
  | cons c p ih =>
    intro hp hds hdsall hws hwsall
    have hc : c ≠ '[' := hp c (List.mem_cons_self _ _)
    have hp2 : ∀ x ∈ p, x ≠ '[' := fun x hx => hp x (List.mem_cons_of_mem _ hx)
    rw [List.cons_append, cleanAux_miss (matchEmote_not_bracket hc _),
        ih hp2 hds hdsall hws hwsall, List.cons_append]

/-- Witness for C9 at the concrete content split
"gg " / 123 / Kappa / " well played". -/
theorem claim_C9_witness :
    ((∀ c ∈ "gg ".data, c ≠ '[') ∧ "123".data ≠ [] ∧
      (∀ c ∈ "123".data, isDigitChar c = true) ∧ "Kappa".data ≠ [] ∧
      (∀ c ∈ "Kappa".data, isWordChar c = true)) ∧
    cleanAux ("gg ".data ++ ("[emote:".data ++
        ("123".data ++ (':' :: ("Kappa".data ++ (']' :: " well played".data)))))) =
      "gg ".data ++ ("Kappa".data ++ cleanAux " well played".data) :=
  ⟨⟨by decide, by decide, by decide, by decide, by decide⟩,
   claim_C9_emote_stripping.2.1 "gg ".data "123".data "Kappa".data " well played".data
     (by decide) (by decide) (by decide) (by decide) (by decide)⟩

/-- C4 counterexample: the bare legacy name UserBannedEvent has canonical
domain kind UserBanned, which is not in the allow-list [ChatMessage], so the
claim requires the frame to be dropped; but the manager's filter map has no
entry for the bare name, the frame is not dropped, and handling it emits a
UserBanned domain event. -/
theorem claim_C4_counterexample :
    canonicalKindOf "UserBannedEvent" = some KickEventType.UserBanned ∧
    extractEventType bareBanWire = some "UserBannedEvent" ∧
    KickEventType.UserBanned ∉ [KickEventType.ChatMessage] ∧
    droppedByFilter [KickEventType.ChatMessage] bareBanWire = false ∧
    (handleMessage [KickEventType.ChatMessage] true bareBanWire).map
        (isDomainEmission .UserBanned) = [false, true] ∧
    ¬ (droppedByFilter [KickEventType.ChatMessage] bareBanWire = true ↔
        KickEventType.UserBanned ∉ [KickEventType.ChatMessage]) :=
  ⟨by decide, by decide, by decide, by decide, by decide,
   fun h => absurd (h.mpr (by decide)) (by decide)⟩

/-- C4 (amended): with a non-empty allow-list, a frame is dropped before
parsing iff its extracted wire event name has an entry in the manager's
EVENT_TYPE_MAP and that mapped kind is not in the list — legacy aliases and
kinds missing from that map (RewardRedeemed, KicksGifted) bypass the filter.
The claim's concrete examples hold: with allow-list [ChatMessage] a
namespaced UserBanned frame produces no domain emission and a ChatMessage
frame produces exactly one. -/
theorem claim_C4_filtering (F : List KickEventType) (raw : String) (hF : F ≠ []) :
    (droppedByFilter F raw = true ↔
      ∃ et k, extractEventType raw = some et ∧ EVENT_TYPE_MAP et = some k ∧ k ∉ F) ∧
    (handleMessage [KickEventType.ChatMessage] true nsBanWire).map
        Emission.isDomainAny = [false] ∧
    (handleMessage [KickEventType.ChatMessage] true chatWire).map
        (isDomainEmission .ChatMessage) = [false, true] := by
  refine ⟨?_, by decide, by decide⟩
  have hFe : F.isEmpty = false := by
    cases F with
    | nil => exact absurd rfl hF
    | cons a t => rfl
  cases hx : extractEventType raw with
  | none => simp [droppedByFilter, hx]
  | some et =>
    cases hm : EVENT_TYPE_MAP et with
    | none => simp [droppedByFilter, isEventFiltered, hx, hm, hFe]
    | some k => simp [droppedByFilter, isEventFiltered, hx, hm, hFe]

/-- Witness for C4 with the allow-list [ChatMessage] and the namespaced
UserBanned frame. -/
theorem claim_C4_witness :
    ([KickEventType.ChatMessage] : List KickEventType) ≠ [] ∧
    ((droppedByFilter [KickEventType.ChatMessage] nsBanWire = true ↔
        ∃ et k, extractEventType nsBanWire = some et ∧ EVENT_TYPE_MAP et = some k ∧
          k ∉ [KickEventType.ChatMessage]) ∧
      (handleMessage [KickEventType.ChatMessage] true nsBanWire).map
          Emission.isDomainAny = [false] ∧
      (handleMessage [KickEventType.ChatMessage] true chatWire).map
          (isDomainEmission .ChatMessage) = [false, true]) :=
  ⟨by decide, claim_C4_filtering [KickEventType.ChatMessage] nsBanWire (by decide)⟩

end KickWss
